import Mathlib

/-! FmReceiver: frequency model, display fields and control loop

A shallow embedding of `FmReceiver.cpp` (an Arduino sketch for an AVR board,
where `int` and `unsigned int` are 16 bits wide).  Machine integers are natural
numbers; every C operation that can wrap is followed by an explicit reduction
modulo the width of its C type.
-/

namespace FmReceiver

/-! ## Machine integers -/

/-- Conversion to `uint8_t`. -/
def u8 (n : Nat) : Nat := n % 256

/-- Conversion to `uint16_t` (also `unsigned int` on AVR). -/
def u16 (n : Nat) : Nat := n % 65536

/-- Conversion to `uint32_t`. -/
def u32 (n : Nat) : Nat := n % 4294967296

/-- Conversion to `uint64_t`. -/
def u64 (n : Nat) : Nat := n % 18446744073709551616

/-- Subtraction `a - b` of two `uint16_t` values in 16-bit unsigned arithmetic. -/
def sub16 (a b : Nat) : Nat := (a + (65536 - b % 65536)) % 65536

/-- Subtraction `a - b` of two `uint32_t` values in 32-bit unsigned arithmetic. -/
def sub32 (a b : Nat) : Nat := (a + (4294967296 - b % 4294967296)) % 4294967296

/-- The value of `(int16_t)n` for a `uint16_t` value `n`. -/
def toInt16 (n : Nat) : Int := if n % 65536 < 32768 then (n % 65536 : Nat) else (n % 65536 : Nat) - 65536

/-! ## Application-specific constants (source lines 295-300) -/

def lock_detect_min : Nat := 400
def lock_detect_max : Nat := 660

def tune_freq_10khz_min : Nat := 8776
def tune_freq_10khz_max : Nat := 10824
def tune_freq_10khz_span : Nat := sub16 tune_freq_10khz_max tune_freq_10khz_min

/-! ## Conversion functions (source lines 307-340) -/

/-- Embeds `uint16_t get_lo_freq_10khz_for_rf_freq_10khz(uint16_t rf_freq)`. -/
def get_lo_freq_10khz_for_rf_freq_10khz (rf_freq : Nat) : Nat :=
  if rf_freq ≥ 8800 ∧ rf_freq < 9800 then
    sub16 rf_freq 1070
  else if rf_freq ≥ 9800 ∧ rf_freq ≤ 10800 then
    u16 (rf_freq + 1070)
  else
    0

/-- Embeds `uint16_t tuning_value_to_freq_10khz(uint32_t analog_reading)`: the product and
the sum are 32-bit, the returned value is converted to 16 bits. -/
def tuning_value_to_freq_10khz (analog_reading : Nat) : Nat :=
  u16 (u32 (tune_freq_10khz_min + u32 (tune_freq_10khz_span * analog_reading) / 1024))

/-- Embeds `uint8_t freq_10khz_to_fm_channel(uint32_t freq_10khz)`: the numerator is
32-bit, the divisor `10*tune_freq_10khz_span` is a 16-bit product, the returned
value is converted to 8 bits. -/
def freq_10khz_to_fm_channel (freq_10khz : Nat) : Nat :=
  if freq_10khz ≥ tune_freq_10khz_min ∧ freq_10khz < tune_freq_10khz_max then
    u8 (u32 (2048 * sub32 freq_10khz tune_freq_10khz_min) / u16 (10 * tune_freq_10khz_span))
  else
    255

/-- Embeds `uint16_t rf_freq_10khz_to_channel_freq_10khz(uint16_t rf_freq_10khz)`. -/
def rf_freq_10khz_to_channel_freq_10khz (rf_freq_10khz : Nat) : Nat :=
  u16 (u16 ((rf_freq_10khz / 20) * 20) + 10)

/-! ## Strings

An Arduino `String` (and a C string) is the list of its bytes before the
terminating NUL. -/

/-- The C string stored in a character buffer: the bytes before the first NUL
(`String(const char *)`, `c_str()`, `Print::write(const char *)`). -/
def cstr (buf : List Nat) : List Nat := buf.takeWhile (fun b => b != 0)

/-- Embeds `strncpy(dst, src, n)`: the `n` bytes stored at `dst`, namely the C string at
`src` cut to `n` bytes and padded with NULs.  `src` is the memory from the source
pointer to the end of its array; what lies past that end reads as NUL here. -/
def strncpy (src : List Nat) (n : Nat) : List Nat :=
  cstr (src.take n) ++ List.replicate (n - (cstr (src.take n)).length) 0

/-- Arduino `String::substring(left, right)`: the bytes at `[left, right)`, with
the bounds swapped when `left > right` and `right` cut to the length. -/
def substring (s : List Nat) (left right : Nat) : List Nat :=
  let l := if left > right then right else left
  let r := if left > right then left else right
  if l ≥ s.length then [] else (s.take (min r s.length)).drop l

/-- The conversion `%d` of `sprintf` with a minimum field width, for a
non-negative argument: decimal digits, padded with blanks on the left. -/
def sprintf_d (width n : Nat) : List Nat :=
  let digits := (Nat.toDigits 10 n).map Char.toNat
  List.replicate (width - digits.length) 32 ++ digits

/-- Modelled from the spec: the Arduino core's `constrain(amt, low, high)` is not
part of the sources; the spec says the sample is clamped to a fixed valid range. -/
def constrain (amt low high : Nat) : Nat :=
  if amt < low then low else if amt > high then high else amt

/-! ## GU144X16D-7053B display class (source lines 8-221)

The serial stream `_serial` is the list of bytes sent so far.  The wait on the
busy pin before each write is not modelled: a write is taken to return.  A field
is identified by its slot in `_fields`; its back pointer `_vfd` is not stored,
the owning display is passed to `update` explicitly. -/

def VFD_MAX_FIELDS : Nat := 8

/-- Embeds `class VFD::Field`: the attributes of one UI element. -/
structure VFD.Field where
  _x : Nat
  _y : Nat
  _width : Nat
  _xmag : Nat
  _ymag : Nat
  _value : List Nat
  _enabled : Bool
  _stale : Bool
deriving DecidableEq, Repr

/-- Embeds `class VFD`: the serial stream, the field array and the field count. -/
structure VFD where
  _serial : List Nat
  _fields : List VFD.Field
  _num_fields : Nat
deriving DecidableEq, Repr

/-- Embeds `enum WriteMode { NORMAL=0, OR, AND, XOR }`. -/
inductive VFD.WriteMode where
  | NORMAL
  | OR
  | AND
  | XOR
deriving DecidableEq, Repr

/-- The integer value of a write mode. -/
def VFD.WriteMode.toNat : VFD.WriteMode → Nat
  | .NORMAL => 0
  | .OR => 1
  | .AND => 2
  | .XOR => 3

namespace VFD.Field

/-- Embeds `Field()`: empty value, enabled, not stale; the geometry members have no
initialiser and are zero in the static display object. -/
def new : VFD.Field :=
  { _x := 0, _y := 0, _width := 0, _xmag := 0, _ymag := 0, _value := [], _enabled := true,
    _stale := false }

/-- Embeds `void set_enabled(bool enabled)`. -/
def set_enabled (self : VFD.Field) (enabled : Bool) : VFD.Field :=
  { self with _enabled := enabled, _stale := true }

/-- Embeds `void set_value(String value)`. -/
def set_value (self : VFD.Field) (value : List Nat) : VFD.Field :=
  { self with _stale := self._stale || (value != self._value), _value := value }

/-- Embeds `void set_position(uint8_t x, uint8_t y)`. -/
def set_position (self : VFD.Field) (x y : Nat) : VFD.Field :=
  { self with _stale := self._stale || ((x != self._x) || (y != self._y)), _x := x, _y := y }

/-- Embeds `void set_font_width(uint8_t width)`. -/
def set_font_width (self : VFD.Field) (width : Nat) : VFD.Field :=
  { self with _stale := self._stale || (width != self._width), _width := width }

/-- Embeds `void set_font_magnification(uint8_t xmag, uint8_t ymag)`. -/
def set_font_magnification (self : VFD.Field) (xmag ymag : Nat) : VFD.Field :=
  { self with _stale := self._stale || ((xmag != self._xmag) || (ymag != self._ymag)),
              _xmag := xmag, _ymag := ymag }

/-- Embeds `void enstale()`. -/
def enstale (self : VFD.Field) : VFD.Field :=
  { self with _stale := true }

end VFD.Field

namespace VFD

/-- Embeds `VFD(Stream &serial, uint8_t busy_pin)`: no field created, nothing sent. -/
def new : VFD :=
  { _serial := [], _fields := List.replicate VFD_MAX_FIELDS VFD.Field.new, _num_fields := 0 }

/-- The field in slot `i`, `_fields[i]`. -/
def field (self : VFD) (i : Nat) : VFD.Field := self._fields.getD i VFD.Field.new

/-- Store `f` in slot `i`, `_fields[i] = f`. -/
def set_field (self : VFD) (i : Nat) (f : VFD.Field) : VFD :=
  { self with _fields := self._fields.set i f }

/-- Embeds `void write(char *s)`: sends the C string. -/
def write_s (self : VFD) (s : List Nat) : VFD :=
  { self with _serial := self._serial ++ cstr s }

/-- Embeds `void write(uint8_t buf[], size_t len)`: sends the first `len` bytes. -/
def write (self : VFD) (buf : List Nat) (len : Nat) : VFD :=
  { self with _serial := self._serial ++ buf.take len }

/-- Embeds `void set_cursor(uint8_t x, uint8_t y)`. -/
def set_cursor (self : VFD) (x y : Nat) : VFD :=
  self.write [0x1f, 0x24, x, 0, y, 0] 6

/-- Embeds `void set_font_width(uint8_t w)`. -/
def set_font_width (self : VFD) (w : Nat) : VFD :=
  self.write [0x1f, 0x28, 0x67, 0x03, w] 5

/-- Embeds `void set_font_magnification(uint8_t x, uint8_t y)`. -/
def set_font_magnification (self : VFD) (x y : Nat) : VFD :=
  self.write [0x1f, 0x28, 0x67, 0x40, x, y] 6

/-- Embeds `void set_write_mode(enum WriteMode mode)`. -/
def set_write_mode (self : VFD) (mode : VFD.WriteMode) : VFD :=
  self.write [0x1f, 0x77, mode.toNat] 3

/-- Embeds `void draw(x, y, w, h, data, len)`: the 13-byte header, then `len` bytes of
`data`. -/
def draw (self : VFD) (x y w h : Nat) (data : List Nat) (len : Nat) : VFD :=
  (self.write [0x1f, 0x28, 0x64, 0x21, x, 0, y, 0, w, 0, h, 0, 1] 13).write data len

/-- Embeds `void set_custom_char_download_enabled(bool enabled)`: the argument is not
used. -/
def set_custom_char_download_enabled (self : VFD) (_enabled : Bool) : VFD :=
  self.write_s [0x1b, 0x25, 0x01]

/-- Embeds `void download_custom_char(uint8_t char_code, uint8_t bitmap[5])`. -/
def download_custom_char (self : VFD) (char_code : Nat) (bitmap : List Nat) : VFD :=
  self.write [0x1b, 0x26, 1, char_code, char_code, 0x05, bitmap.getD 0 0, bitmap.getD 1 0,
    bitmap.getD 2 0, bitmap.getD 3 0, bitmap.getD 4 0] 11

/-- Embeds `void init()`: the reset sequence `ESC @`. -/
def init (self : VFD) : VFD :=
  self.write_s [0x1b, 0x40]

end VFD

namespace VFD.Field

/-- Embeds `void update()`: `vfd` is the display `_vfd` points to.  Returns the field and
the display after the call. -/
def update (self : VFD.Field) (vfd : VFD) : VFD.Field × VFD :=
  if self._enabled && self._stale then
    let vfd := vfd.set_font_magnification self._xmag self._ymag
    let vfd := vfd.set_font_width self._width
    let vfd := vfd.set_cursor self._x self._y
    let vfd := vfd.write_s self._value
    ({ self with _stale := false }, vfd)
  else
    (self, vfd)

/-- Embeds `void set_value_and_update(String value)`. -/
def set_value_and_update (self : VFD.Field) (value : List Nat) (vfd : VFD) : VFD.Field × VFD :=
  (self.set_value value).update vfd

end VFD.Field

namespace VFD

/-- Call a field method that does not write to the display on `_fields[i]`. -/
def on_field (self : VFD) (i : Nat) (m : VFD.Field → VFD.Field) : VFD :=
  self.set_field i (m (self.field i))

/-- Call a field method that writes to the display on `_fields[i]`: the method
runs on the field and on this display, then the field is stored back. -/
def on_field_io (self : VFD) (i : Nat) (m : VFD.Field → VFD → VFD.Field × VFD) : VFD :=
  ((m (self.field i) self).2).set_field i (m (self.field i) self).1

/-- Embeds `Field *create_text_field(x, y, width, xmag, ymag)`: the returned pointer is
`none` for `NULL` and `some i` for `&_fields[i]`. -/
def create_text_field (self : VFD) (x y width xmag ymag : Nat) : Option Nat × VFD :=
  if self._num_fields = VFD_MAX_FIELDS then
    (none, self)
  else
    let v := self.on_field self._num_fields (fun f => f.set_position x y)
    let v := v.on_field self._num_fields (fun f => f.set_font_width width)
    let v := v.on_field self._num_fields (fun f => f.set_font_magnification xmag ymag)
    (some self._num_fields, { v with _num_fields := u8 (self._num_fields + 1) })

/-- Embeds `void update_fields()`. -/
def update_fields (self : VFD) : VFD :=
  (List.range self._num_fields).foldl (fun v i => v.on_field_io i VFD.Field.update) self

/-- Embeds `void enstale_fields()`. -/
def enstale_fields (self : VFD) : VFD :=
  (List.range self._num_fields).foldl (fun v i => v.on_field i VFD.Field.enstale) self

/-- Embeds `void clear()`. -/
def clear (self : VFD) : VFD :=
  (self.write_s [0x0c]).enstale_fields

/-- Embeds `void begin()`. -/
def begin (self : VFD) : VFD :=
  let v := self.init
  let v := v.set_custom_char_download_enabled true
  let v := v.set_write_mode VFD.WriteMode.NORMAL
  let v := v.set_font_width 1
  let v := v.set_font_magnification 1 1
  let v := v.clear
  v.set_cursor 0 0

end VFD

/-! ## Synthesizer collaborator

The Si5351 driver is an external library; the sketch's calls on it are recorded
in order. -/

/-- The clock outputs the sketch names. -/
inductive si5351_clock where
  | SI5351_CLK0
  | SI5351_CLK1
  | SI5351_CLK2
deriving DecidableEq, Repr

/-- The PLLs the sketch names. -/
inductive si5351_pll where
  | SI5351_PLLA
  | SI5351_PLLB
deriving DecidableEq, Repr

/-- One call on the synthesizer object `si5351`.  The first argument of `init` is
always the library constant `SI5351_CRYSTAL_LOAD_6PF` and is not recorded. -/
inductive Si5351Call where
  | init (xo_freq : Nat) (corr : Nat)
  | set_ms_source (clk : si5351_clock) (pll : si5351_pll)
  | set_freq (freq : Nat) (clk : si5351_clock)
  | set_clock_invert (clk : si5351_clock) (inv : Nat)
deriving DecidableEq, Repr

/-! ## Static objects and UI elements (source lines 237-289) -/

/-- The field handles, in the order of the six `create_text_field` calls of the
static initialisers. -/
def fm_field : Nat := 0
def strength_field : Nat := 1
def freq_field : Nat := 2
def tune_field : Nat := 3
def graticule_field : Nat := 4
def spectrum_field : Nat := 5

/-- Embeds `const String graticule`. -/
def graticule : List Nat :=
  [0xf6, 0xf7, 0xf6, 0xf7, 0xf6, 0xf7, 0xf6, 0xf7, 124,
   0xf7, 0xf6, 0xf7, 0xf6, 0xf7, 0xf6, 0xf7, 0xf6, 0xf7, 124,
   0xf7, 0xf6, 0xf7, 0xf6, 0xf7, 0xf6, 0xf7, 0xf6, 0xf7, 124,
   0xf7, 0xf6, 0xf7, 0xf6, 0xf7, 0xf6, 0xf7, 0xf6, 0xf7, 124,
   0xf7, 0xf6, 0xf7, 0xf6, 0xf7, 0xf6, 0xf7, 0xf6, 0xf7, 124,
   0xf7, 0xf6, 0xf7, 0xf6, 0xf7, 0xf6, 0xf7, 0xf6, 0xf7, 124]

/-- Embeds `const String bars[]`. -/
def bars : List (List Nat) :=
  [[32, 32, 32, 32],
   [0xf0, 32, 32, 32],
   [0xf0, 0xf1, 32, 32],
   [0xf0, 0xf1, 0xf2, 32],
   [0xf0, 0xf1, 0xf2, 0xf3]]

def sig_bar_0 : List Nat := [0x01 <<< 1, 0x01 <<< 1, 0x01 <<< 1, 0x03 <<< 1, 0x03 <<< 1]
def sig_bar_1 : List Nat := [0x07 <<< 1, 0x07 <<< 1, 0x07 <<< 1, 0x0F <<< 1, 0x0F <<< 1]
def sig_bar_2 : List Nat := [0x1F <<< 1, 0x1F <<< 1, 0x1F <<< 1, 0x3F <<< 1, 0x3F <<< 1]
def sig_bar_3 : List Nat := [0x7F <<< 1, 0x7F <<< 1, 0x7F <<< 1, 0x7F <<< 1, 0x7F <<< 1]

def spec_ch_0_left : List Nat := [0x03 >>> 0, 0x0C >>> 2, 0x10 >>> 2, 0x20 >>> 2, 0x20 >>> 2]
def spec_ch_1_left : List Nat := [0x03 >>> 0, 0x0C >>> 1, 0x10 >>> 1, 0x20 >>> 1, 0x20 >>> 1]
def spec_ch_2_left : List Nat := [0x03 <<< 0, 0x0C <<< 0, 0x10 <<< 0, 0x20 <<< 0, 0x20 <<< 0]
def spec_ch_3_left : List Nat := [0x03 <<< 1, 0x0C <<< 1, 0x10 <<< 1, 0x20 <<< 1, 0x20 <<< 1]

def spec_ch_0_right : List Nat := [0x20 >>> 2, 0x20 >>> 2, 0x10 >>> 2, 0x0C >>> 2, 0x03 >>> 0]
def spec_ch_1_right : List Nat := [0x20 >>> 1, 0x20 >>> 1, 0x10 >>> 1, 0x0C >>> 1, 0x03 >>> 0]
def spec_ch_2_right : List Nat := [0x20 <<< 0, 0x20 <<< 0, 0x10 <<< 0, 0x0C <<< 0, 0x03 <<< 0]
def spec_ch_3_right : List Nat := [0x20 <<< 1, 0x20 <<< 1, 0x10 <<< 1, 0x0C <<< 1, 0x03 <<< 1]

def stereo_wave_left : List Nat := [0x1C <<< 1, 0x22 <<< 1, 0x00 <<< 1, 0x00 <<< 1, 0x00 <<< 1]
def stereo_wave_right : List Nat := [0x00 <<< 1, 0x00 <<< 1, 0x00 <<< 1, 0x22 <<< 1, 0x1C <<< 1]

def graticule_minor_tick : List Nat := [0x00 <<< 3, 0x00 <<< 3, 0x07 <<< 3, 0x00 <<< 3, 0x00 <<< 3]
def graticule_minor_dot : List Nat := [0x00 <<< 3, 0x00 <<< 3, 0x02 <<< 3, 0x00 <<< 3, 0x00 <<< 3]

/-- The mutable state of the sketch: the calls made on `si5351`, the display
`vfd`, the buffer `char spectrum[255]`, and the static locals of `loop()`. -/
structure Sketch where
  si5351 : List Si5351Call
  vfd : VFD
  spectrum : List Nat
  rf_freq_10khz : Nat
  lo_freq_10khz : Nat
  last_fm_channel : Nat
  last_channel_freq_10khz : Nat
  tuning_value : Nat
  strength_value : Nat
deriving DecidableEq, Repr

/-- The state after static initialisation: the display constructed, the six
fields created (`-1` converts to the `uint8_t` 255), `spectrum` holding the empty
string in 255 zero bytes, the static locals of `loop()` at their initialisers
(`last_fm_channel = -1` converts to the `uint16_t` 65535). -/
def static_init : Sketch :=
  let v := VFD.new
  let v := (v.create_text_field 0 0 0 2 1).2
  let v := (v.create_text_field 0 1 0 1 1).2
  let v := (v.create_text_field 45 0 0 2 1).2
  let v := (v.create_text_field 110 0 2 1 1).2
  let v := (v.create_text_field 255 255 1 1 1).2
  let v := (v.create_text_field 255 255 0 1 1).2
  { si5351 := [], vfd := v, spectrum := List.replicate 255 0,
    rf_freq_10khz := 0, lo_freq_10khz := 0, last_fm_channel := 65535,
    last_channel_freq_10khz := 0, tuning_value := 512, strength_value := 0 }

/-- Embeds `void setup()`, for a synthesizer whose `init` succeeds (when it fails the
function never returns).  Delays, pin modes and the debug serial port are not
part of the state. -/
def setup (g : Sketch) : Sketch :=
  let si := g.si5351 ++
    [Si5351Call.init 26999370 0,
     Si5351Call.set_ms_source .SI5351_CLK0 .SI5351_PLLA,
     Si5351Call.set_ms_source .SI5351_CLK1 .SI5351_PLLA,
     Si5351Call.set_ms_source .SI5351_CLK2 .SI5351_PLLB]
  let v := g.vfd.begin
  let v := v.download_custom_char 0xf0 sig_bar_0
  let v := v.download_custom_char 0xf1 sig_bar_1
  let v := v.download_custom_char 0xf2 sig_bar_2
  let v := v.download_custom_char 0xf3 sig_bar_3
  let v := v.download_custom_char 0xf4 stereo_wave_left
  let v := v.download_custom_char 0xf5 stereo_wave_right
  let v := v.download_custom_char 0xf6 graticule_minor_dot
  let v := v.download_custom_char 0xf7 graticule_minor_tick
  let v := v.download_custom_char 0xf8 spec_ch_0_left
  let v := v.download_custom_char 0xf9 spec_ch_1_left
  let v := v.download_custom_char 0xfa spec_ch_2_left
  let v := v.download_custom_char 0xfb spec_ch_3_left
  let v := v.download_custom_char 0xfc spec_ch_0_right
  let v := v.download_custom_char 0xfd spec_ch_1_right
  let v := v.download_custom_char 0xfe spec_ch_2_right
  let v := v.download_custom_char 0xff spec_ch_3_right
  let spectrum := List.replicate g.spectrum.length 0xf8
  let spectrum := List.replicate spectrum.length 95
  let v := v.on_field spectrum_field (fun f => f.set_enabled true)
  let v := v.on_field graticule_field (fun f => f.set_enabled false)
  { g with si5351 := si, vfd := v, spectrum := spectrum }

/-- Embeds `void loop()`: one iteration, where `tuning_sample` is what
`analogRead(tuning_pin)` returns and `lock_sample` what
`analogRead(lock_detect_pin)` returns (both non-negative `int` values).
Arithmetic on `uint16_t` operands is 16-bit unsigned. -/
def loop (g : Sketch) (tuning_sample lock_sample : Nat) : Sketch :=
  -- lines 418-423
  let tuning_value := u16 (u32 (u16 (3 * g.tuning_value) + u32 tuning_sample) / 4)
  let rf_freq_10khz := tuning_value_to_freq_10khz tuning_value
  let channel_freq_10khz := rf_freq_10khz_to_channel_freq_10khz rf_freq_10khz
  let _fm_channel := freq_10khz_to_fm_channel rf_freq_10khz
  -- lines 425-429
  let changed : Bool := channel_freq_10khz != g.last_channel_freq_10khz
  let last_channel_freq_10khz := if changed then channel_freq_10khz else g.last_channel_freq_10khz
  let lo_freq_10khz :=
    if changed then get_lo_freq_10khz_for_rf_freq_10khz channel_freq_10khz else g.lo_freq_10khz
  let update_si5351 : Bool := changed
  -- lines 431-436
  let si5351 :=
    if update_si5351 then
      g.si5351 ++
        [Si5351Call.set_freq (u64 (lo_freq_10khz * 1000000)) .SI5351_CLK0,
         Si5351Call.set_freq (u64 (lo_freq_10khz * 1000000)) .SI5351_CLK1,
         Si5351Call.set_clock_invert .SI5351_CLK0 0,
         Si5351Call.set_clock_invert .SI5351_CLK1 1]
    else
      g.si5351
  -- line 438
  let vfd := g.vfd.on_field_io fm_field (fun f v => f.set_value_and_update [70, 77] v)
  -- lines 440-442
  let strength_value := u16 (constrain lock_sample lock_detect_min lock_detect_max)
  let num_bars :=
    u8 (u16 (5 * sub16 strength_value lock_detect_min) / sub16 lock_detect_max lock_detect_min)
  let vfd := vfd.on_field_io strength_field
    (fun f v => f.set_value_and_update (bars.getD (constrain num_bars 0 4) []) v)
  -- lines 446-449
  let graticule_pixel_offset :=
    u8 (u16 (5 + u16 (7 * (sub16 rf_freq_10khz tune_freq_10khz_min % 10)) / 10))
  let graticule_char_offset :=
    u8 (u16 (0 + u16 (1 * (sub16 rf_freq_10khz tune_freq_10khz_min % 100)) / 10))
  let vfd := vfd.on_field graticule_field
    (fun f => f.set_position (u8 (40 + (256 - graticule_pixel_offset))) 1)
  let vfd := vfd.on_field_io graticule_field
    (fun f v => f.set_value_and_update
      ([32] ++ substring graticule graticule_char_offset (graticule_char_offset + 13) ++ [32]) v)
  -- lines 453-461
  let spectrum_pixel_offset :=
    u8 (u16 (0 + u16 (6 * (sub16 rf_freq_10khz tune_freq_10khz_min % 10)) / 10))
  let spectrum_char_offset :=
    u16 (0 + sub16 (u16 (1 * rf_freq_10khz)) tune_freq_10khz_min / 10)
  let subspectrum := strncpy (g.spectrum.drop spectrum_char_offset) 16 ++ [0]
  let subspectrum := subspectrum.set 0 32
  let subspectrum := subspectrum.set 15 32
  let subspectrum := subspectrum.set 16 0
  let vfd := vfd.on_field spectrum_field
    (fun f => f.set_position (u8 (40 + (256 - spectrum_pixel_offset))) 1)
  let vfd := vfd.on_field_io spectrum_field
    (fun f v => f.set_value_and_update (cstr subspectrum) v)
  -- lines 464-468
  let whole := u8 (channel_freq_10khz / 100)
  let part := u8 ((channel_freq_10khz % 100) / 10)
  let buf := sprintf_d 3 whole ++ [46] ++ sprintf_d 1 part
  let vfd := vfd.on_field_io freq_field (fun f v => f.set_value_and_update buf v)
  -- lines 471-474
  let vfd := vfd.set_write_mode VFD.WriteMode.OR
  let reticle := [0x00, 0x82, 0xC6, 0x82, 0x00]
  let vfd := vfd.draw 83 9 5 7 reticle 5
  let vfd := vfd.set_write_mode VFD.WriteMode.NORMAL
  -- lines 477-480
  let spectrum :=
    if Int.natAbs (toInt16 rf_freq_10khz - toInt16 channel_freq_10khz) < 5 then
      let spectrum := g.spectrum.set (u16 (2 * (spectrum_char_offset / 2) + 8))
        (if num_bars = 0 then 95 else u8 (0xf8 + num_bars - 1))
      spectrum.set (u16 (2 * (spectrum_char_offset / 2) + 9))
        (if num_bars = 0 then 95 else u8 (0xfc + num_bars - 1))
    else
      g.spectrum
  { si5351 := si5351, vfd := vfd, spectrum := spectrum,
    rf_freq_10khz := rf_freq_10khz, lo_freq_10khz := lo_freq_10khz,
    last_fm_channel := g.last_fm_channel,
    last_channel_freq_10khz := last_channel_freq_10khz,
    tuning_value := tuning_value, strength_value := g.strength_value }

/-- The state after `setup()` and then one `loop()` iteration per pair of samples
in `samples`. -/
def run (samples : List (Nat × Nat)) : Sketch :=
  samples.foldl (fun g s => loop g s.1 s.2) (setup static_init)

/-! ## Named parts of `loop()` and of the display protocol -/

/-- The window start offset of source line 454,
`0 + (1 * rf_freq_10khz-tune_freq_10khz_min) / 10`, as the source computes it in
16-bit unsigned arithmetic. -/
def spectrum_char_offset (rf_freq_10khz : Nat) : Nat :=
  u16 (0 + sub16 (u16 (1 * rf_freq_10khz)) tune_freq_10khz_min / 10)

/-- The window start offset in the words of the spec: (RF frequency - band lower
bound) / 10, in exact arithmetic with integer division. -/
def spectrum_char_offset_spec (rf_freq : Nat) : Nat :=
  (rf_freq - tune_freq_10khz_min) / 10

/-- The bar count of source lines 440-441 for the sample `lock_sample` that
`analogRead(lock_detect_pin)` returns: the clamped sample scaled in 16-bit unsigned
arithmetic and converted to `uint8_t`. -/
def num_bars (lock_sample : Nat) : Nat :=
  u8 (u16 (5 * sub16 (u16 (constrain lock_sample lock_detect_min lock_detect_max))
    lock_detect_min) / sub16 lock_detect_max lock_detect_min)

/-- The bytes `update()` sends for a field that is enabled and stale (source lines
79-82): magnification command, font-width command, cursor command, value. -/
def VFD.Field.write_sequence (self : VFD.Field) : List Nat :=
  [0x1f, 0x28, 0x67, 0x40, self._xmag, self._ymag] ++ [0x1f, 0x28, 0x67, 0x03, self._width] ++
    [0x1f, 0x24, self._x, 0, self._y, 0] ++ cstr self._value

/-! ## Theorems -/

/-! ### Shared lemmas -/

/-- The synthesizer calls of one iteration: none when the channel frequency is the
one last applied, otherwise the four calls of source lines 432-435. -/
theorem loop_si5351 (g : Sketch) (t l : Nat) :
    (loop g t l).si5351 =
      if rf_freq_10khz_to_channel_freq_10khz (loop g t l).rf_freq_10khz
          = g.last_channel_freq_10khz then g.si5351
      else g.si5351 ++
        [Si5351Call.set_freq (u64 (get_lo_freq_10khz_for_rf_freq_10khz
            (rf_freq_10khz_to_channel_freq_10khz (loop g t l).rf_freq_10khz) * 1000000))
            .SI5351_CLK0,
         Si5351Call.set_freq (u64 (get_lo_freq_10khz_for_rf_freq_10khz
            (rf_freq_10khz_to_channel_freq_10khz (loop g t l).rf_freq_10khz) * 1000000))
            .SI5351_CLK1,
         Si5351Call.set_clock_invert .SI5351_CLK0 0,
         Si5351Call.set_clock_invert .SI5351_CLK1 1] := by
  simp only [loop]
  split <;> simp_all

/-- The local-oscillator frequency is a 16-bit value. -/
theorem get_lo_freq_lt (f : Nat) : get_lo_freq_10khz_for_rf_freq_10khz f < 65536 := by
  unfold get_lo_freq_10khz_for_rf_freq_10khz sub16 u16
  split
  · omega
  · split <;> omega

/-- The local-oscillator frequency is 0 exactly outside `[8800, 10800]`. -/
theorem get_lo_freq_eq_zero_iff (f : Nat) :
    get_lo_freq_10khz_for_rf_freq_10khz f = 0 ↔ ¬ (8800 ≤ f ∧ f ≤ 10800) := by
  unfold get_lo_freq_10khz_for_rf_freq_10khz sub16 u16
  split
  · omega
  · split <;> omega

/-- The channel quantisation of a 16-bit frequency, without the conversions. -/
theorem channel_freq_eq (rf : Nat) (hrf : rf < 65536) :
    rf_freq_10khz_to_channel_freq_10khz rf = 20 * (rf / 20) + 10 := by
  have h1 : rf / 20 * 20 < 65536 := by omega
  have h2 : rf / 20 * 20 + 10 < 65536 := by omega
  unfold rf_freq_10khz_to_channel_freq_10khz u16
  rw [Nat.mod_eq_of_lt h1, Nat.mod_eq_of_lt h2]
  omega

/-- Reading a slot after a store. -/
theorem VFD.field_set_field (v : VFD) (i j : Nat) (f : VFD.Field) :
    (v.set_field i f).field j = if i = j ∧ i < v._fields.length then f else v.field j := by
  unfold VFD.set_field VFD.field
  simp only [List.getD_eq_getElem?_getD, List.getElem?_set]
  by_cases hij : i = j
  · subst hij
    by_cases hl : i < v._fields.length
    · simp [hl]
    · simp [hl]
      rw [List.getElem?_eq_none (by omega)]
      rfl
  · simp [hij]

/-- A store keeps the array size. -/
theorem VFD.set_field_length (v : VFD) (i : Nat) (f : VFD.Field) :
    (v.set_field i f)._fields.length = v._fields.length := by
  simp [VFD.set_field]


/-- An enabled stale field sends its write sequence and becomes clean. -/
theorem VFD.Field.update_stale (f : VFD.Field) (vfd : VFD)
    (he : f._enabled = true) (hs : f._stale = true) :
    f.update vfd =
      ({ f with _stale := false },
        { vfd with _serial := vfd._serial ++
          ([0x1f, 0x28, 0x67, 0x40, f._xmag, f._ymag] ++ [0x1f, 0x28, 0x67, 0x03, f._width] ++
            [0x1f, 0x24, f._x, 0, f._y, 0] ++ cstr f._value) }) := by
  simp [VFD.Field.update, he, hs, VFD.write_s, VFD.set_cursor, VFD.set_font_width,
    VFD.set_font_magnification, VFD.write]

/-- A field that is disabled or clean is left alone and nothing is sent. -/
theorem VFD.Field.update_clean (f : VFD.Field) (vfd : VFD)
    (h : f._enabled = false ∨ f._stale = false) : f.update vfd = (f, vfd) := by
  rcases h with h | h <;> simp [VFD.Field.update, h]

/-- A second `update()` right after one changes nothing. -/
theorem VFD.Field.update_update (g : VFD.Field) (d : VFD) :
    (g.update d).1.update (g.update d).2 = g.update d := by
  by_cases h : g._enabled = true ∧ g._stale = true
  · rw [VFD.Field.update_stale g d h.1 h.2]
    exact VFD.Field.update_clean _ _ (Or.inr rfl)
  · have h2 : g._enabled = false ∨ g._stale = false := by
      cases he : g._enabled <;> cases hs : g._stale <;> simp_all
    rw [VFD.Field.update_clean g d h2]
    exact VFD.Field.update_clean g d h2

/-- The slot a successful `create_text_field` fills, and the state it leaves. -/
theorem VFD.create_text_field_free (v : VFD) (x y width xmag ymag : Nat)
    (hn : v._num_fields < VFD_MAX_FIELDS) (hlen : v._fields.length = VFD_MAX_FIELDS) :
    v.create_text_field x y width xmag ymag =
      (some v._num_fields,
        { v with
          _fields := v._fields.set v._num_fields
            ((((v.field v._num_fields).set_position x y).set_font_width width).set_font_magnification
              xmag ymag),
          _num_fields := v._num_fields + 1 }) := by
  have h8 : VFD_MAX_FIELDS = 8 := rfl
  have hne : ¬ v._num_fields = VFD_MAX_FIELDS := by omega
  have hu : u8 (v._num_fields + 1) = v._num_fields + 1 := by
    unfold u8
    omega
  unfold VFD.create_text_field
  rw [if_neg hne, hu]
  simp only [VFD.on_field, VFD.field_set_field, VFD.set_field_length, hlen, hn, and_self,
    if_true]
  simp [VFD.set_field]

/-- A full display refuses a further field and is left as it is. -/
theorem VFD.create_text_field_full (v : VFD) (x y width xmag ymag : Nat)
    (hn : v._num_fields = VFD_MAX_FIELDS) :
    v.create_text_field x y width xmag ymag = (none, v) := by
  unfold VFD.create_text_field
  rw [if_pos hn]

/-- The field count after a sequence of `create_text_field` calls. -/
theorem VFD.create_text_fields_count (calls : List (Nat × Nat × Nat × Nat × Nat)) (v : VFD)
    (hn : v._num_fields ≤ VFD_MAX_FIELDS) (hlen : v._fields.length = VFD_MAX_FIELDS) :
    (calls.foldl (fun d c => (d.create_text_field c.1 c.2.1 c.2.2.1 c.2.2.2.1 c.2.2.2.2).2)
      v)._num_fields = min (v._num_fields + calls.length) VFD_MAX_FIELDS := by
  induction calls generalizing v with
  | nil => simp [Nat.min_eq_left hn]
  | cons c cs ih =>
    rw [List.foldl_cons]
    by_cases hfull : v._num_fields = VFD_MAX_FIELDS
    · rw [VFD.create_text_field_full v _ _ _ _ _ hfull, ih v hn hlen]
      simp only [List.length_cons]
      omega
    · have hlt : v._num_fields < VFD_MAX_FIELDS := by omega
      rw [VFD.create_text_field_free v _ _ _ _ _ hlt hlen, ih]
      · simp only [List.length_cons]
        omega
      · simp only
        omega
      · simp only [List.length_set]
        exact hlen

/-- The spectrum buffer after one iteration: untouched unless the tuned frequency
is within 5 units of its channel centre, else two cells are stored. -/
theorem loop_spectrum (g : Sketch) (t l : Nat) :
    (loop g t l).spectrum =
      if Int.natAbs (toInt16 (loop g t l).rf_freq_10khz
          - toInt16 (rf_freq_10khz_to_channel_freq_10khz (loop g t l).rf_freq_10khz)) < 5 then
        (g.spectrum.set (u16 (2 * (spectrum_char_offset (loop g t l).rf_freq_10khz / 2) + 8))
          (if num_bars l = 0 then 95 else u8 (0xf8 + num_bars l - 1))).set
          (u16 (2 * (spectrum_char_offset (loop g t l).rf_freq_10khz / 2) + 9))
          (if num_bars l = 0 then 95 else u8 (0xfc + num_bars l - 1))
      else g.spectrum := rfl

/-- The smoothed tuning value after one iteration. -/
theorem loop_tuning_value (g : Sketch) (t l : Nat) :
    (loop g t l).tuning_value = u16 (u32 (u16 (3 * g.tuning_value) + u32 t) / 4) := rfl

/-- The RF frequency of an iteration is derived from its smoothed tuning value. -/
theorem loop_rf_freq (g : Sketch) (t l : Nat) :
    (loop g t l).rf_freq_10khz = tuning_value_to_freq_10khz (loop g t l).tuning_value := rfl

/-- After an iteration the last-applied channel frequency is the current one. -/
theorem loop_last_channel (g : Sketch) (t l : Nat) :
    (loop g t l).last_channel_freq_10khz =
      rf_freq_10khz_to_channel_freq_10khz (loop g t l).rf_freq_10khz := by
  simp only [loop]
  split <;> simp_all

/-- The smoothing step on values in `0..1023`, without the conversions. -/
theorem smoothing_eq (old raw : Nat) (ho : old ≤ 1023) (hr : raw ≤ 1023) :
    u16 (u32 (u16 (3 * old) + u32 raw) / 4) = (3 * old + raw) / 4 := by
  have h1 : 3 * old % 65536 = 3 * old := Nat.mod_eq_of_lt (by omega)
  have h2 : raw % 4294967296 = raw := Nat.mod_eq_of_lt (by omega)
  have h3 : (3 * old + raw) % 4294967296 = 3 * old + raw := Nat.mod_eq_of_lt (by omega)
  have h4 : (3 * old + raw) / 4 % 65536 = (3 * old + raw) / 4 := Nat.mod_eq_of_lt (by omega)
  unfold u16 u32
  rw [h1, h2, h3, h4]

/-- The tuning map on `0..1023`, without the conversions. -/
theorem tuning_value_to_freq_eq (tv : Nat) (htv : tv ≤ 1023) :
    tuning_value_to_freq_10khz tv = 8776 + 2 * tv := by
  have hs : tune_freq_10khz_span = 2048 := by decide
  unfold tuning_value_to_freq_10khz u16 u32
  rw [hs]
  unfold tune_freq_10khz_min
  omega

/-- The window start offset of a 16-bit frequency at or above the band minimum. -/
theorem spectrum_char_offset_eq (rf : Nat) (hlo : 8776 ≤ rf) (hhi : rf < 65536) :
    spectrum_char_offset rf = (rf - 8776) / 10 := by
  unfold spectrum_char_offset sub16 u16 tune_freq_10khz_min
  omega

/-- The spectrum buffer is declared with 255 cells. -/
theorem static_init_spectrum_length : static_init.spectrum.length = 255 :=
  List.length_replicate 255 0

/-- The function `setup()` keeps the size of the spectrum buffer. -/
theorem setup_spectrum_length (g : Sketch) : (setup g).spectrum.length = g.spectrum.length := by
  show (List.replicate (List.replicate g.spectrum.length 0xf8).length 95).length = _
  rw [List.length_replicate, List.length_replicate]

/-- The smoothed tuning value stays in `0..1023` over iterations whose tuning
samples are in `0..1023`. -/
theorem foldl_loop_tuning_value_le (samples : List (Nat × Nat)) (g : Sketch)
    (hg : g.tuning_value ≤ 1023) (hs : ∀ s ∈ samples, s.1 ≤ 1023) :
    (samples.foldl (fun g s => loop g s.1 s.2) g).tuning_value ≤ 1023 := by
  induction samples generalizing g with
  | nil => exact hg
  | cons s ss ih =>
    rw [List.foldl_cons]
    apply ih
    · rw [loop_tuning_value, smoothing_eq _ _ hg (hs s (List.mem_cons_self s ss))]
      have := hs s (List.mem_cons_self s ss)
      omega
    · intro x hx
      exact hs x (List.mem_cons_of_mem s hx)

/-- What `update()` does, in one equation: a stale enabled field is cleaned and its
write sequence appended to the serial stream, any other field is left alone. -/
theorem VFD.Field.update_eq (f : VFD.Field) (vfd : VFD) :
    f.update vfd =
      (if f._enabled = true ∧ f._stale = true then { f with _stale := false } else f,
       { vfd with _serial := vfd._serial ++
          (if f._enabled = true ∧ f._stale = true then f.write_sequence else []) }) := by
  by_cases h : f._enabled = true ∧ f._stale = true
  · rw [VFD.Field.update_stale f vfd h.1 h.2, if_pos h, if_pos h]
    rfl
  · have h2 : f._enabled = false ∨ f._stale = false := by
      cases he : f._enabled <;> cases hs : f._stale <;> simp_all
    rw [VFD.Field.update_clean f vfd h2, if_neg h, if_neg h]
    simp

/-- The display after the first `k` steps of the loop of `enstale_fields()`. -/
theorem VFD.enstale_fold (v : VFD) (k : Nat) (hk : k ≤ v._fields.length) :
    ((List.range k).foldl (fun d i => d.on_field i VFD.Field.enstale) v)._serial = v._serial ∧
    ((List.range k).foldl (fun d i => d.on_field i VFD.Field.enstale) v)._num_fields
      = v._num_fields ∧
    ((List.range k).foldl (fun d i => d.on_field i VFD.Field.enstale) v)._fields.length
      = v._fields.length ∧
    ∀ j, ((List.range k).foldl (fun d i => d.on_field i VFD.Field.enstale) v).field j
      = if j < k then (v.field j).enstale else v.field j := by
  induction k with
  | zero => simp
  | succ k ih =>
    obtain ⟨h1, h2, h3, h4⟩ := ih (by omega)
    rw [List.range_succ, List.foldl_append]
    simp only [List.foldl_cons, List.foldl_nil]
    refine ⟨h1, h2, ?_, ?_⟩
    · rw [VFD.on_field, VFD.set_field_length, h3]
    · intro j
      have hlt : k < v._fields.length := by omega
      rw [VFD.on_field, VFD.field_set_field, h3, h4 k, h4 j]
      by_cases hjk : k = j
      · subst hjk
        simp [hlt]
      · by_cases hj : j < k
        · have hj1 : j < k + 1 := by omega
          simp [hjk, hj, hj1]
        · have hj1 : ¬ j < k + 1 := by omega
          simp [hjk, hj, hj1]

/-- One step of the loop of `update_fields()`: `_fields[i].update()`. -/
theorem VFD.on_field_io_update (d : VFD) (i : Nat) :
    (d.on_field_io i VFD.Field.update)._serial
      = d._serial ++ (if (d.field i)._enabled = true ∧ (d.field i)._stale = true
          then (d.field i).write_sequence else []) ∧
    (d.on_field_io i VFD.Field.update)._num_fields = d._num_fields ∧
    (d.on_field_io i VFD.Field.update)._fields.length = d._fields.length ∧
    ∀ j, (d.on_field_io i VFD.Field.update).field j
      = if i = j ∧ i < d._fields.length then
          (if (d.field i)._enabled = true ∧ (d.field i)._stale = true
           then { d.field i with _stale := false } else d.field i)
        else d.field j := by
  rw [VFD.on_field_io, VFD.Field.update_eq]
  refine ⟨rfl, rfl, ?_, ?_⟩
  · rw [VFD.set_field_length]
  · intro j
    rw [VFD.field_set_field]
    rfl

/-- The display after the first `k` steps of the loop of `update_fields()`. -/
theorem VFD.update_fold (v : VFD) (k : Nat) (hk : k ≤ v._fields.length) :
    ((List.range k).foldl (fun d i => d.on_field_io i VFD.Field.update) v)._serial
      = v._serial ++ ((List.range k).map (fun i =>
          if (v.field i)._enabled = true ∧ (v.field i)._stale = true
          then (v.field i).write_sequence else [])).flatten ∧
    ((List.range k).foldl (fun d i => d.on_field_io i VFD.Field.update) v)._num_fields
      = v._num_fields ∧
    ((List.range k).foldl (fun d i => d.on_field_io i VFD.Field.update) v)._fields.length
      = v._fields.length ∧
    ∀ j, ((List.range k).foldl (fun d i => d.on_field_io i VFD.Field.update) v).field j
      = if j < k then
          (if (v.field j)._enabled = true ∧ (v.field j)._stale = true
           then { v.field j with _stale := false } else v.field j)
        else v.field j := by
  induction k with
  | zero => simp
  | succ k ih =>
    obtain ⟨h1, h2, h3, h4⟩ := ih (by omega)
    rw [List.range_succ, List.foldl_append]
    simp only [List.foldl_cons, List.foldl_nil, List.map_append, List.map_cons, List.map_nil,
      List.flatten_append, List.flatten_cons, List.flatten_nil, List.append_nil]
    have hkk := h4 k
    rw [if_neg (by omega)] at hkk
    obtain ⟨s1, s2, s3, s4⟩ := VFD.on_field_io_update
      ((List.range k).foldl (fun d i => d.on_field_io i VFD.Field.update) v) k
    refine ⟨?_, ?_, ?_, ?_⟩
    · rw [s1, hkk, h1, List.append_assoc]
    · rw [s2, h2]
    · rw [s3, h3]
    · intro j
      have hlt : k < v._fields.length := by omega
      rw [s4 j, hkk, h3, h4 j]
      by_cases hjk : k = j
      · subst hjk
        simp [hlt]
      · by_cases hj : j < k
        · have hj1 : j < k + 1 := by omega
          simp [hjk, hj, hj1]
        · have hj1 : ¬ j < k + 1 := by omega
          simp [hjk, hj, hj1]

/-- After `enstale_fields()`, `update_fields()` sends the write sequence of each
enabled created field once, in slot order, and a second `update_fields()` sends
nothing. -/
theorem VFD.update_after_enstale (v : VFD) (hn : v._num_fields ≤ v._fields.length) :
    v.enstale_fields.update_fields._serial
      = v._serial ++ ((List.range v._num_fields).map (fun i =>
          if (v.field i)._enabled = true then (v.field i).write_sequence else [])).flatten ∧
    v.enstale_fields.update_fields.update_fields._serial
      = v.enstale_fields.update_fields._serial := by
  obtain ⟨e1, e2, e3, e4⟩ := VFD.enstale_fold v v._num_fields hn
  have he : (List.range v._num_fields).foldl (fun d i => d.on_field i VFD.Field.enstale) v
      = v.enstale_fields := rfl
  rw [he] at e1 e2 e3 e4
  obtain ⟨u1, u2, u3, u4⟩ := VFD.update_fold v.enstale_fields v.enstale_fields._num_fields
    (by rw [e2, e3]; exact hn)
  have hu : (List.range v.enstale_fields._num_fields).foldl
      (fun d i => d.on_field_io i VFD.Field.update) v.enstale_fields
      = v.enstale_fields.update_fields := rfl
  rw [hu] at u1 u2 u3 u4
  obtain ⟨w1, _, _, _⟩ := VFD.update_fold v.enstale_fields.update_fields
    v.enstale_fields.update_fields._num_fields (by rw [u2, u3, e2, e3]; exact hn)
  have hw : (List.range v.enstale_fields.update_fields._num_fields).foldl
      (fun d i => d.on_field_io i VFD.Field.update) v.enstale_fields.update_fields
      = v.enstale_fields.update_fields.update_fields := rfl
  rw [hw] at w1
  refine ⟨?_, ?_⟩
  · rw [u1, e1, e2]
    congr 2
    apply List.map_congr_left
    intro i hi
    have hi2 : i < v._num_fields := List.mem_range.mp hi
    rw [e4 i, if_pos hi2]
    simp [VFD.Field.enstale, VFD.Field.write_sequence]
  · rw [w1]
    have hnil : ((List.range v.enstale_fields.update_fields._num_fields).map (fun i =>
        if (v.enstale_fields.update_fields.field i)._enabled = true ∧
            (v.enstale_fields.update_fields.field i)._stale = true
        then (v.enstale_fields.update_fields.field i).write_sequence else [])).flatten = [] := by
      rw [List.flatten_eq_nil_iff]
      intro l hl
      obtain ⟨i, hi, rfl⟩ := List.mem_map.mp hl
      have hi2 : i < v._num_fields := by
        have := List.mem_range.mp hi
        rw [u2, e2] at this
        exact this
      have hfi : ¬ ((v.enstale_fields.update_fields.field i)._enabled = true ∧
          (v.enstale_fields.update_fields.field i)._stale = true) := by
        rw [u4 i, e2, if_pos hi2, e4 i, if_pos hi2]
        cases hen : (v.field i)._enabled <;> simp [VFD.Field.enstale, hen]
      rw [if_neg hfi]
    rw [hnil, List.append_nil]

/-! ### Claims -/

/-- C1: for every 16-bit frequency `f` the local-oscillator frequency is `f - 1070`
on `[8800, 9800)`, `f + 1070` on `[9800, 10800]` and `0` elsewhere; neither
result wraps around 16 bits, `9000` gives `7930` and `10000` gives `11070`. -/
theorem get_lo_freq_split_band (f : Nat) (hf : f < 65536) :
    (8800 ≤ f ∧ f < 9800 →
      get_lo_freq_10khz_for_rf_freq_10khz f + 1070 = f ∧
      get_lo_freq_10khz_for_rf_freq_10khz f = f - 1070) ∧
    (9800 ≤ f ∧ f ≤ 10800 →
      get_lo_freq_10khz_for_rf_freq_10khz f = f + 1070 ∧ f + 1070 < 65536) ∧
    (¬ (8800 ≤ f ∧ f ≤ 10800) → get_lo_freq_10khz_for_rf_freq_10khz f = 0) ∧
    get_lo_freq_10khz_for_rf_freq_10khz 9000 = 7930 ∧
    get_lo_freq_10khz_for_rf_freq_10khz 10000 = 11070 := by
  unfold get_lo_freq_10khz_for_rf_freq_10khz sub16 u16
  refine ⟨?_, ?_, ?_, by decide, by decide⟩
  · intro h
    rw [if_pos (by omega)]
    omega
  · intro h
    rw [if_neg (by omega), if_pos (by omega)]
    omega
  · intro h
    rw [if_neg (by omega), if_neg (by omega)]

/-- Witness for C1 at `f = 9000`. -/
theorem get_lo_freq_split_band_witness :
    (9000 : Nat) < 65536 ∧ get_lo_freq_10khz_for_rf_freq_10khz 9000 = 9000 - 1070 :=
  ⟨by decide, ((get_lo_freq_split_band 9000 (by decide)).1 (by decide)).2⟩

/-- C2, counterexample: after `setup()` and twelve iterations with the tuning input
at 0 the smoothed tuning value is 15 (channel 88.1 MHz); the next iteration with
input 0 moves to channel frequency 8790, for which the local-oscillator function
returns the sentinel 0, and `set_freq` is called with 0 on both clocks. -/
theorem loop_set_freq_zero_counterexample :
    (run (List.replicate 12 (0, 0))).tuning_value = 15 ∧
    (loop (run (List.replicate 12 (0, 0))) 0 0).si5351 =
      (run (List.replicate 12 (0, 0))).si5351 ++
        [Si5351Call.set_freq 0 .SI5351_CLK0, Si5351Call.set_freq 0 .SI5351_CLK1,
         Si5351Call.set_clock_invert .SI5351_CLK0 0,
         Si5351Call.set_clock_invert .SI5351_CLK1 1] := by
  decide

/-- C2, amended: in every iteration the synthesizer is left alone when the channel
frequency `ch` is the one last applied; when it differs, `set_freq` is called on
both clocks with the local-oscillator frequency of `ch` times 1000000 (no 64-bit
wrap), whatever that frequency is, and this argument is 0 exactly when `ch` lies
outside `[8800, 10800]`. -/
theorem loop_set_freq_pushes_lo (g : Sketch) (t l ch : Nat)
    (hch : ch = rf_freq_10khz_to_channel_freq_10khz (loop g t l).rf_freq_10khz) :
    (ch = g.last_channel_freq_10khz → (loop g t l).si5351 = g.si5351) ∧
    (ch ≠ g.last_channel_freq_10khz →
      (loop g t l).si5351 = g.si5351 ++
        [Si5351Call.set_freq (get_lo_freq_10khz_for_rf_freq_10khz ch * 1000000) .SI5351_CLK0,
         Si5351Call.set_freq (get_lo_freq_10khz_for_rf_freq_10khz ch * 1000000) .SI5351_CLK1,
         Si5351Call.set_clock_invert .SI5351_CLK0 0,
         Si5351Call.set_clock_invert .SI5351_CLK1 1]) ∧
    (get_lo_freq_10khz_for_rf_freq_10khz ch * 1000000 = 0 ↔ ¬ (8800 ≤ ch ∧ ch ≤ 10800)) := by
  subst hch
  have hlt := get_lo_freq_lt (rf_freq_10khz_to_channel_freq_10khz (loop g t l).rf_freq_10khz)
  have hu : u64 (get_lo_freq_10khz_for_rf_freq_10khz
      (rf_freq_10khz_to_channel_freq_10khz (loop g t l).rf_freq_10khz) * 1000000) =
      get_lo_freq_10khz_for_rf_freq_10khz
      (rf_freq_10khz_to_channel_freq_10khz (loop g t l).rf_freq_10khz) * 1000000 := by
    unfold u64
    omega
  refine ⟨?_, ?_, ?_⟩
  · intro h
    rw [loop_si5351, if_pos h]
  · intro h
    rw [loop_si5351, if_neg h, hu]
  · rw [← get_lo_freq_eq_zero_iff]
    omega

/-- Witness for C2 (amended): from the state after `setup()`, an iteration with the
tuning input at 512 selects channel frequency 9810 and calls `set_freq` with
10880000000 on both clocks. -/
theorem loop_set_freq_pushes_lo_witness :
    (loop (setup static_init) 512 0).si5351 = (setup static_init).si5351 ++
      [Si5351Call.set_freq (get_lo_freq_10khz_for_rf_freq_10khz 9810 * 1000000) .SI5351_CLK0,
       Si5351Call.set_freq (get_lo_freq_10khz_for_rf_freq_10khz 9810 * 1000000) .SI5351_CLK1,
       Si5351Call.set_clock_invert .SI5351_CLK0 0,
       Si5351Call.set_clock_invert .SI5351_CLK1 1] :=
  (loop_set_freq_pushes_lo (setup static_init) 512 0 9810 (by decide)).2.1 (by decide)

/-- C3: for every 16-bit `rf` the channel quantisation is idempotent, its result
`c` is at least 10 with `(c - 10) % 20 = 0`, and `c = 20 * (rf / 20) + 10` with no
16-bit wrap; the band edges 8776 and 10824 give 8770 and 10830. -/
theorem channel_freq_idempotent (rf : Nat) (hrf : rf < 65536) :
    rf_freq_10khz_to_channel_freq_10khz (rf_freq_10khz_to_channel_freq_10khz rf)
      = rf_freq_10khz_to_channel_freq_10khz rf ∧
    10 ≤ rf_freq_10khz_to_channel_freq_10khz rf ∧
    (rf_freq_10khz_to_channel_freq_10khz rf - 10) % 20 = 0 ∧
    sub16 (rf_freq_10khz_to_channel_freq_10khz rf) 10 % 20 = 0 ∧
    rf_freq_10khz_to_channel_freq_10khz rf = 20 * (rf / 20) + 10 ∧
    20 * (rf / 20) + 10 < 65536 ∧
    rf_freq_10khz_to_channel_freq_10khz 8776 = 8770 ∧
    rf_freq_10khz_to_channel_freq_10khz 10824 = 10830 := by
  have hc := channel_freq_eq rf hrf
  have hq : 20 * (rf / 20) + 10 < 65536 := by omega
  have hcc := channel_freq_eq (20 * (rf / 20) + 10) hq
  rw [hc]
  refine ⟨?_, ?_, ?_, ?_, rfl, hq, by decide, by decide⟩
  · rw [hcc]
    omega
  · omega
  · omega
  · have hsub : sub16 (20 * (rf / 20) + 10) 10 = 20 * (rf / 20) := by
      unfold sub16
      omega
    rw [hsub, Nat.mul_mod_right]

/-- Witness for C3 at `rf = 9800`. -/
theorem channel_freq_idempotent_witness :
    (9800 : Nat) < 65536 ∧
    rf_freq_10khz_to_channel_freq_10khz (rf_freq_10khz_to_channel_freq_10khz 9800)
      = rf_freq_10khz_to_channel_freq_10khz 9800 :=
  ⟨by decide, (channel_freq_idempotent 9800 (by decide)).1⟩

/-- C4, counterexample: input 1023 does not give `band_max = 10824`. -/
theorem tuning_value_1023_counterexample :
    ¬ (tuning_value_to_freq_10khz 0 = tune_freq_10khz_min ∧
       tuning_value_to_freq_10khz 1023 = tune_freq_10khz_max) := by
  decide

/-- C4, amended: input 0 gives `band_min = 8776`; input 1023 gives 10822, two units
short of `band_max = 10824`. -/
theorem tuning_value_range_ends :
    tuning_value_to_freq_10khz 0 = tune_freq_10khz_min ∧
    tune_freq_10khz_min = 8776 ∧
    tuning_value_to_freq_10khz 1023 = 10822 ∧
    tuning_value_to_freq_10khz 1023 + 2 = tune_freq_10khz_max ∧
    tune_freq_10khz_max = 10824 := by
  decide

/-- C5: on inputs `a ≤ b ≤ 1023` the tuning map is monotonic non-decreasing; the
32-bit product and the 16-bit result do not wrap, so the result is
`band_min + span * b / 1024`. -/
theorem tuning_value_monotonic (a b : Nat) (hab : a ≤ b) (hb : b ≤ 1023) :
    tuning_value_to_freq_10khz a ≤ tuning_value_to_freq_10khz b ∧
    tune_freq_10khz_span * b < 4294967296 ∧
    tune_freq_10khz_min + tune_freq_10khz_span * b / 1024 < 65536 ∧
    tuning_value_to_freq_10khz b
      = tune_freq_10khz_min + tune_freq_10khz_span * b / 1024 := by
  have hs : tune_freq_10khz_span = 2048 := by decide
  unfold tuning_value_to_freq_10khz u16 u32
  rw [hs]
  unfold tune_freq_10khz_min
  omega

/-- Witness for C5 at `a = 100`, `b = 900`. -/
theorem tuning_value_monotonic_witness :
    (100 : Nat) ≤ 900 ∧ (900 : Nat) ≤ 1023 ∧
    tuning_value_to_freq_10khz 100 ≤ tuning_value_to_freq_10khz 900 :=
  ⟨by decide, by decide, (tuning_value_monotonic 100 900 (by decide) (by decide)).1⟩

/-- C6: the channel index is the sentinel 255 for every `rf` below `band_min` and
for every `rf` at or above `band_max`, and it is 0 at `band_min`. -/
theorem fm_channel_out_of_band (rf : Nat)
    (hrf : rf < tune_freq_10khz_min ∨ tune_freq_10khz_max ≤ rf) :
    freq_10khz_to_fm_channel rf = 255 ∧
    freq_10khz_to_fm_channel tune_freq_10khz_min = 0 := by
  refine ⟨?_, by decide⟩
  unfold freq_10khz_to_fm_channel
  rw [if_neg (by omega)]

/-- Witness for C6 at `rf = band_max`. -/
theorem fm_channel_out_of_band_witness :
    freq_10khz_to_fm_channel 10824 = 255 ∧ freq_10khz_to_fm_channel 8775 = 255 :=
  ⟨(fm_channel_out_of_band 10824 (Or.inr (by decide))).1,
   (fm_channel_out_of_band 8775 (Or.inl (by decide))).1⟩

/-- C7, counterexample: the in-band frequency 8777 does not get the index
`2048 * (rf - band_min) / span = 1`, and it shares index 0 with 8776. -/
theorem fm_channel_resolution_counterexample :
    tune_freq_10khz_min ≤ 8777 ∧ 8777 < tune_freq_10khz_max ∧
    freq_10khz_to_fm_channel 8777
      ≠ 2048 * (8777 - tune_freq_10khz_min) / tune_freq_10khz_span ∧
    freq_10khz_to_fm_channel 8777 ≠ 8777 - tune_freq_10khz_min ∧
    freq_10khz_to_fm_channel 8777 = freq_10khz_to_fm_channel 8776 := by
  decide

/-- C7, amended: for every `rf` in `[band_min, band_max)` the channel index is
`2048 * (rf - band_min) / (10 * span) = (rf - band_min) / 10`, one step per 10
units of frequency; it lies in `[0, 205)`, inside `[0, 2048)`, and two in-band
frequencies get the same index exactly when they lie in the same 10-unit cell. -/
theorem fm_channel_in_band (rf rf2 : Nat)
    (hlo : tune_freq_10khz_min ≤ rf) (hhi : rf < tune_freq_10khz_max)
    (hlo2 : tune_freq_10khz_min ≤ rf2) (hhi2 : rf2 < tune_freq_10khz_max) :
    freq_10khz_to_fm_channel rf
      = 2048 * (rf - tune_freq_10khz_min) / (10 * tune_freq_10khz_span) ∧
    freq_10khz_to_fm_channel rf = (rf - tune_freq_10khz_min) / 10 ∧
    freq_10khz_to_fm_channel rf < 205 ∧
    freq_10khz_to_fm_channel rf < 2048 ∧
    (freq_10khz_to_fm_channel rf = freq_10khz_to_fm_channel rf2 ↔
      (rf - tune_freq_10khz_min) / 10 = (rf2 - tune_freq_10khz_min) / 10) := by
  have hs : tune_freq_10khz_span = 2048 := by decide
  unfold freq_10khz_to_fm_channel
  rw [if_pos ⟨hlo, hhi⟩, if_pos ⟨hlo2, hhi2⟩, hs]
  unfold tune_freq_10khz_min tune_freq_10khz_max at *
  unfold u8 u16 u32 sub32
  norm_num
  omega

/-- Witness for C7 (amended) at `rf = 9800`, `rf2 = 9805`. -/
theorem fm_channel_in_band_witness :
    freq_10khz_to_fm_channel 9800 = (9800 - tune_freq_10khz_min) / 10 ∧
    freq_10khz_to_fm_channel 9800 = freq_10khz_to_fm_channel 9805 :=
  ⟨(fm_channel_in_band 9800 9805 (by decide) (by decide) (by decide) (by decide)).2.1,
   (fm_channel_in_band 9800 9805 (by decide) (by decide) (by decide) (by decide)).2.2.2.2.2
     (by decide)⟩

/-- C8: for an enabled field, `set_value_and_update(v)` on a field whose value
differs from `v` or that is stale sends exactly one write sequence (magnification,
width, cursor, value) and a second `set_value_and_update(v)` sends nothing; after
an `update()`, `set_position` to a different `(x, y)` makes the next `update()` send
exactly one write sequence and any number of further `update()` calls send
nothing; for every field, a second `update()` right after one sends no bytes. -/
theorem field_update_once (f : VFD.Field) (vfd : VFD) (v : List Nat) (x y : Nat)
    (he : f._enabled = true) :
    ((f._value ≠ v ∨ f._stale = true) →
      ∀ f1 vfd1, f.set_value_and_update v vfd = (f1, vfd1) →
        vfd1._serial = vfd._serial ++
          ([0x1f, 0x28, 0x67, 0x40, f._xmag, f._ymag] ++ [0x1f, 0x28, 0x67, 0x03, f._width] ++
            [0x1f, 0x24, f._x, 0, f._y, 0] ++ cstr v) ∧
        f1.set_value_and_update v vfd1 = (f1, vfd1)) ∧
    (∀ f1 vfd1, f.update vfd = (f1, vfd1) → (x ≠ f1._x ∨ y ≠ f1._y) →
      ∀ f2 vfd2, (f1.set_position x y).update vfd1 = (f2, vfd2) →
        vfd2._serial = vfd1._serial ++
          ([0x1f, 0x28, 0x67, 0x40, f._xmag, f._ymag] ++ [0x1f, 0x28, 0x67, 0x03, f._width] ++
            [0x1f, 0x24, x, 0, y, 0] ++ cstr f._value) ∧
        ∀ n : Nat, (fun p : VFD.Field × VFD => p.1.update p.2)^[n] (f2, vfd2) = (f2, vfd2)) ∧
    (∀ (g : VFD.Field) (d : VFD),
      ((g.update d).1.update (g.update d).2).2._serial = (g.update d).2._serial) := by
  refine ⟨?_, ?_, ?_⟩
  · intro hd f1 vfd1 h1
    have hst : (f.set_value v)._stale = true := by
      rcases hd with hd | hd
      · simp [VFD.Field.set_value, Ne.symm hd]
      · simp [VFD.Field.set_value, hd]
    unfold VFD.Field.set_value_and_update at h1
    rw [VFD.Field.update_stale (f.set_value v) vfd he hst] at h1
    have hf1 := (Prod.mk.inj h1).1.symm
    have hv1 := (Prod.mk.inj h1).2.symm
    subst hf1 hv1
    refine ⟨rfl, ?_⟩
    have hsame : VFD.Field.set_value { f.set_value v with _stale := false } v
        = { f.set_value v with _stale := false } := by
      simp [VFD.Field.set_value]
    unfold VFD.Field.set_value_and_update
    rw [hsame]
    exact VFD.Field.update_clean _ _ (Or.inr rfl)
  · intro f1 vfd1 h1 hxy f2 vfd2 h2
    have hf1 : f1 = (f.update vfd).1 := by rw [h1]
    have hattr : f1._enabled = true ∧ f1._stale = false ∧ f1._xmag = f._xmag ∧
        f1._ymag = f._ymag ∧ f1._width = f._width ∧ f1._value = f._value := by
      rw [hf1]
      cases hs : f._stale
      · rw [VFD.Field.update_clean f vfd (Or.inr hs)]
        exact ⟨he, hs, rfl, rfl, rfl, rfl⟩
      · rw [VFD.Field.update_stale f vfd he hs]
        exact ⟨he, rfl, rfl, rfl, rfl, rfl⟩
    obtain ⟨h1e, h1s, hxm, hym, hw, hv⟩ := hattr
    have hst : (f1.set_position x y)._stale = true := by
      rcases hxy with hxy | hxy <;> simp [VFD.Field.set_position, hxy]
    rw [VFD.Field.update_stale (f1.set_position x y) vfd1 h1e hst] at h2
    have hf2 := (Prod.mk.inj h2).1.symm
    have hv2 := (Prod.mk.inj h2).2.symm
    subst hf2 hv2
    refine ⟨?_, ?_⟩
    · simp [VFD.Field.set_position, hxm, hym, hw, hv]
    · intro n
      induction n with
      | zero => rfl
      | succ k ih =>
        rw [Function.iterate_succ_apply', ih]
        exact VFD.Field.update_clean _ _ (Or.inr rfl)
  · intro g d
    rw [VFD.Field.update_update]

/-- Witness for C8: a freshly constructed field on a freshly constructed display,
set to the value `"FM"`. -/
theorem field_update_once_witness :
    VFD.Field.new._enabled = true ∧
    (VFD.Field.new.set_value_and_update [70, 77] VFD.new).2._serial =
      VFD.new._serial ++
          ([0x1f, 0x28, 0x67, 0x40, VFD.Field.new._xmag, VFD.Field.new._ymag] ++
            [0x1f, 0x28, 0x67, 0x03, VFD.Field.new._width] ++
            [0x1f, 0x24, VFD.Field.new._x, 0, VFD.Field.new._y, 0] ++ cstr [70, 77]) :=
  ⟨rfl, ((field_update_once VFD.Field.new VFD.new [70, 77] 1 0 rfl).1 (Or.inl (by decide)) _ _ rfl).1⟩

/-- C9: each of `set_value`, `set_position`, `set_font_width` and
`set_font_magnification` leaves the whole field unchanged when called with the
field's current attribute(s); called with a differing argument it stores the new
attribute(s), sets the stale flag and changes nothing else; no setter clears a set
stale flag; `set_enabled(true)` and `enstale()` always leave it set. -/
theorem field_setters_frame (f : VFD.Field) (v : List Nat) (x y w xm ym : Nat) (e : Bool) :
    f.set_value f._value = f ∧
    f.set_position f._x f._y = f ∧
    f.set_font_width f._width = f ∧
    f.set_font_magnification f._xmag f._ymag = f ∧
    (v ≠ f._value → f.set_value v = { f with _value := v, _stale := true }) ∧
    (x ≠ f._x ∨ y ≠ f._y → f.set_position x y = { f with _x := x, _y := y, _stale := true }) ∧
    (w ≠ f._width → f.set_font_width w = { f with _width := w, _stale := true }) ∧
    (xm ≠ f._xmag ∨ ym ≠ f._ymag →
      f.set_font_magnification xm ym = { f with _xmag := xm, _ymag := ym, _stale := true }) ∧
    (f._stale = true →
      (f.set_value v)._stale = true ∧ (f.set_position x y)._stale = true ∧
      (f.set_font_width w)._stale = true ∧ (f.set_font_magnification xm ym)._stale = true ∧
      (f.set_enabled e)._stale = true ∧ f.enstale._stale = true) ∧
    (f.set_enabled true)._stale = true ∧
    f.enstale._stale = true := by
  obtain ⟨fx, fy, fw, fxm, fym, fv, fe, fs⟩ := f
  refine ⟨?_, ?_, ?_, ?_, ?_, ?_, ?_, ?_, ?_, rfl, rfl⟩
  · simp [VFD.Field.set_value]
  · simp [VFD.Field.set_position]
  · simp [VFD.Field.set_font_width]
  · simp [VFD.Field.set_font_magnification]
  · intro h
    simp [VFD.Field.set_value, h]
  · intro h
    rcases h with h | h <;> simp [VFD.Field.set_position, h]
  · intro h
    simp [VFD.Field.set_font_width, h]
  · intro h
    rcases h with h | h <;> simp [VFD.Field.set_font_magnification, h]
  · intro h
    simp only at h
    subst h
    simp [VFD.Field.set_value, VFD.Field.set_position, VFD.Field.set_font_width,
      VFD.Field.set_font_magnification, VFD.Field.set_enabled, VFD.Field.enstale]

/-- Witness for C9: on a freshly constructed field, moving to `(45, 0)` stores the
position and sets the stale flag; setting the value again on a stale field keeps
the flag. -/
theorem field_setters_frame_witness :
    VFD.Field.new.set_position 45 0 = { VFD.Field.new with _x := 45, _y := 0, _stale := true } ∧
    ((VFD.Field.new.set_position 45 0).set_value [])._stale = true :=
  ⟨(field_setters_frame VFD.Field.new [] 45 0 0 0 0 true).2.2.2.2.2.1 (Or.inl (by decide)),
   ((field_setters_frame (VFD.Field.new.set_position 45 0) [] 45 0 0 0 0 true).2.2.2.2.2.2.2.2.1
      rfl).1⟩

/-- C10: the field count never exceeds `VFD_MAX_FIELDS = 8` under any sequence of
`create_text_field` calls on a constructed display (it is the number of calls,
capped at 8); from any display with an 8-slot field array, a call made with 8
fields returns `NULL` and leaves the whole display unchanged, and a call made with
`n < 8` fields returns slot `n`, stores the position, width and magnification
there, makes the count `n + 1` and leaves every other slot unchanged. -/
theorem create_text_field_capacity (calls : List (Nat × Nat × Nat × Nat × Nat)) (v : VFD)
    (x y width xmag ymag : Nat) (hlen : v._fields.length = VFD_MAX_FIELDS) :
    VFD_MAX_FIELDS = 8 ∧
    (calls.foldl (fun d c => (d.create_text_field c.1 c.2.1 c.2.2.1 c.2.2.2.1 c.2.2.2.2).2)
      VFD.new)._num_fields ≤ VFD_MAX_FIELDS ∧
    (calls.foldl (fun d c => (d.create_text_field c.1 c.2.1 c.2.2.1 c.2.2.2.1 c.2.2.2.2).2)
      VFD.new)._num_fields = min calls.length VFD_MAX_FIELDS ∧
    (v._num_fields = VFD_MAX_FIELDS → v.create_text_field x y width xmag ymag = (none, v)) ∧
    (v._num_fields < VFD_MAX_FIELDS →
      (v.create_text_field x y width xmag ymag).1 = some v._num_fields ∧
      ((v.create_text_field x y width xmag ymag).2.field v._num_fields)._x = x ∧
      ((v.create_text_field x y width xmag ymag).2.field v._num_fields)._y = y ∧
      ((v.create_text_field x y width xmag ymag).2.field v._num_fields)._width = width ∧
      ((v.create_text_field x y width xmag ymag).2.field v._num_fields)._xmag = xmag ∧
      ((v.create_text_field x y width xmag ymag).2.field v._num_fields)._ymag = ymag ∧
      (v.create_text_field x y width xmag ymag).2._num_fields = v._num_fields + 1 ∧
      (v.create_text_field x y width xmag ymag).2._fields.length = VFD_MAX_FIELDS ∧
      (∀ i, i < v._num_fields →
        (v.create_text_field x y width xmag ymag).2.field i = v.field i) ∧
      (∀ i, i ≠ v._num_fields →
        (v.create_text_field x y width xmag ymag).2.field i = v.field i)) := by
  have hcount := VFD.create_text_fields_count calls VFD.new (by decide) (by decide)
  have hother : ∀ i, i ≠ v._num_fields →
      VFD.field { v with
          _fields := v._fields.set v._num_fields
            ((((v.field v._num_fields).set_position x y).set_font_width width).set_font_magnification
              xmag ymag),
          _num_fields := v._num_fields + 1 } i = v.field i := by
    intro i hi
    simp [VFD.field, List.getD_eq_getElem?_getD, List.getElem?_set, Ne.symm hi]
  refine ⟨rfl, ?_, ?_, VFD.create_text_field_full v x y width xmag ymag, ?_⟩
  · rw [hcount]
    exact Nat.min_le_right _ _
  · rw [hcount]
    simp [VFD.new]
  · intro hn
    rw [VFD.create_text_field_free v x y width xmag ymag hn hlen]
    have hin : v._num_fields < v._fields.length := by omega
    refine ⟨rfl, ?_, ?_, ?_, ?_, ?_, rfl, ?_, ?_, hother⟩
    · simp [VFD.field, List.getD_eq_getElem?_getD, hin, VFD.Field.set_position,
        VFD.Field.set_font_width, VFD.Field.set_font_magnification]
    · simp [VFD.field, List.getD_eq_getElem?_getD, hin, VFD.Field.set_position,
        VFD.Field.set_font_width, VFD.Field.set_font_magnification]
    · simp [VFD.field, List.getD_eq_getElem?_getD, hin, VFD.Field.set_position,
        VFD.Field.set_font_width, VFD.Field.set_font_magnification]
    · simp [VFD.field, List.getD_eq_getElem?_getD, hin, VFD.Field.set_position,
        VFD.Field.set_font_width, VFD.Field.set_font_magnification]
    · simp [VFD.field, List.getD_eq_getElem?_getD, hin, VFD.Field.set_position,
        VFD.Field.set_font_width, VFD.Field.set_font_magnification]
    · simp [hlen]
    · intro i hi
      exact hother i (by omega)

/-- Witness for C10: the display of the sketch holds 6 fields, so a further call
returns slot 6; a display filled by 8 calls has 8 fields and refuses a ninth. -/
theorem create_text_field_capacity_witness :
    static_init.vfd._fields.length = VFD_MAX_FIELDS ∧
    (static_init.vfd.create_text_field 110 1 0 1 1).1 = some 6 ∧
    ((List.replicate 9 (0, 0, 0, 1, 1)).foldl
      (fun d c => (d.create_text_field c.1 c.2.1 c.2.2.1 c.2.2.2.1 c.2.2.2.2).2)
      VFD.new)._num_fields ≤ VFD_MAX_FIELDS :=
  ⟨by decide,
   ((create_text_field_capacity [] static_init.vfd 110 1 0 1 1 (by decide)).2.2.2.2
      (by decide)).1,
   (create_text_field_capacity (List.replicate 9 (0, 0, 0, 1, 1)) static_init.vfd 110 1 0 1 1
      (by decide)).2.1⟩

/-- C11: in an iteration from a tuning value and a tuning sample in `0..1023`, with
`rf` the RF frequency of the iteration and `ch` its channel frequency: when
`|rf - ch| >= 5` the spectrum buffer is left as it was; when `|rf - ch| < 5` every
cell other than `2*(i/2)` and `2*(i/2)+1`, for `i` the window start offset plus 8,
is left as it was; the buffer length never changes. -/
theorem loop_spectrum_frame (g : Sketch) (t l rf ch i : Nat)
    (htv : g.tuning_value ≤ 1023) (ht : t ≤ 1023)
    (hrf : rf = (loop g t l).rf_freq_10khz)
    (hch : ch = rf_freq_10khz_to_channel_freq_10khz rf)
    (hi : i = spectrum_char_offset rf + 8) :
    (5 ≤ Int.natAbs ((rf : Int) - (ch : Int)) → (loop g t l).spectrum = g.spectrum) ∧
    (Int.natAbs ((rf : Int) - (ch : Int)) < 5 →
      ∀ j, j ≠ 2 * (i / 2) → j ≠ 2 * (i / 2) + 1 →
        (loop g t l).spectrum[j]? = g.spectrum[j]?) ∧
    (loop g t l).spectrum.length = g.spectrum.length := by
  have hnew : (loop g t l).tuning_value ≤ 1023 := by
    rw [loop_tuning_value, smoothing_eq _ _ htv ht]
    omega
  have hrfv : rf = 8776 + 2 * (loop g t l).tuning_value := by
    rw [hrf, loop_rf_freq, tuning_value_to_freq_eq _ hnew]
  have hrf16 : rf < 65536 := by omega
  have hchv : ch = 20 * (rf / 20) + 10 := by rw [hch, channel_freq_eq rf hrf16]
  have hoff : spectrum_char_offset rf = (rf - 8776) / 10 :=
    spectrum_char_offset_eq rf (by omega) hrf16
  have hrf15 : rf < 32768 := by omega
  have hch15 : ch < 32768 := by omega
  have h1 : toInt16 rf = (rf : Int) := by
    unfold toInt16
    rw [Nat.mod_eq_of_lt hrf16, if_pos hrf15]
  have h2 : toInt16 ch = (ch : Int) := by
    have hm : ch % 65536 = ch := Nat.mod_eq_of_lt (by omega)
    unfold toInt16
    rw [hm, if_pos hch15]
  have ha : u16 (2 * (spectrum_char_offset rf / 2) + 8) = 2 * (i / 2) := by
    unfold u16
    omega
  have hb : u16 (2 * (spectrum_char_offset rf / 2) + 9) = 2 * (i / 2) + 1 := by
    unfold u16
    omega
  rw [loop_spectrum, ← hrf, ← hch, h1, h2, ha, hb]
  refine ⟨?_, ?_, ?_⟩
  · intro h
    rw [if_neg (by omega)]
  · intro h j hj1 hj2
    rw [if_pos h, List.getElem?_set_ne (Ne.symm hj2), List.getElem?_set_ne (Ne.symm hj1)]
  · split <;> simp

/-- Witness for C11: after `setup()`, an iteration with tuning sample 524 reaches
`rf = 9806`, 4 units from the channel centre 9810, and leaves cell 0 as it was. -/
theorem loop_spectrum_frame_witness :
    (loop (setup static_init) 524 500).spectrum[0]? = (setup static_init).spectrum[0]? :=
  (loop_spectrum_frame (setup static_init) 524 500 9806 9810 111 (by decide) (by decide)
    (by decide) (by decide) (by decide)).2.1 (by decide) 0 (by decide) (by decide)

set_option maxRecDepth 100000 in
/-- C12, the code at the failing input: after `setup()`, one iteration with tuning
sample 524 (RF 9806, channel centre 9810) and lock sample 1023 computes a bar count
of 5 and stores `0xfc`, a right-half symbol, in the left cell 110 and the NUL byte
`(0xfc + 4) mod 256` in the right cell 111. -/
theorem spectrum_symbol_out_of_range :
    num_bars 1023 = 5 ∧ num_bars 660 = 5 ∧
    (run [(524, 1023)]).rf_freq_10khz = 9806 ∧
    (run [(524, 1023)]).spectrum[110]? = some 0xfc ∧
    (run [(524, 1023)]).spectrum[111]? = some 0 := by
  decide

/-- C13: in an iteration whose smoothed tuning value `tv` is in `0..1023`, on a
255-cell spectrum buffer, with `off` the window start offset computed from
`tuning_value_to_freq_10khz tv`, which is the offset the iteration uses: the last of
the 16 cells read, `off + 15`, and the two cells written, `2*(off/2)+8` and
`2*(off/2)+9` (whose 16-bit index computations do not wrap), lie below the buffer
length 255; so the 16-cell window at `off` is complete and the buffer keeps its
255 cells. -/
theorem spectrum_indices_in_bounds (g : Sketch) (t l tv off : Nat)
    (htv : tv ≤ 1023) (hloop : tv = (loop g t l).tuning_value)
    (hoff : off = spectrum_char_offset (tuning_value_to_freq_10khz tv))
    (hsp : g.spectrum.length = 255) :
    static_init.spectrum.length = 255 ∧
    off = spectrum_char_offset (loop g t l).rf_freq_10khz ∧
    off ≤ 204 ∧ off + 15 < 255 ∧
    u16 (2 * (off / 2) + 8) = 2 * (off / 2) + 8 ∧ 2 * (off / 2) + 8 < 255 ∧
    u16 (2 * (off / 2) + 9) = 2 * (off / 2) + 9 ∧ 2 * (off / 2) + 9 < 255 ∧
    ((g.spectrum.drop off).take 16).length = 16 ∧
    (loop g t l).spectrum.length = 255 := by
  have hrf := tuning_value_to_freq_eq tv htv
  have ho : off = (tuning_value_to_freq_10khz tv - 8776) / 10 := by
    rw [hoff, spectrum_char_offset_eq _ (by omega) (by omega)]
  have hle : off ≤ 204 := by omega
  have hlen : (loop g t l).spectrum.length = g.spectrum.length := by
    rw [loop_spectrum]
    split <;> simp
  refine ⟨static_init_spectrum_length, ?_, hle, by omega, ?_, by omega, ?_, by omega, ?_, ?_⟩
  · rw [hoff, loop_rf_freq, hloop]
  · unfold u16
    omega
  · unfold u16
    omega
  · rw [List.length_take, List.length_drop, hsp]
    omega
  · rw [hlen, hsp]

/-- Witness for C13: after `setup()`, an iteration with tuning sample 524 has the
smoothed tuning value 515 and the window start offset 103. -/
theorem spectrum_indices_in_bounds_witness :
    (515 : Nat) ≤ 1023 ∧ (103 : Nat) + 15 < 255 ∧
    (((setup static_init).spectrum.drop 103).take 16).length = 16 ∧
    (loop (setup static_init) 524 500).spectrum.length = 255 :=
  ⟨by decide,
   (spectrum_indices_in_bounds (setup static_init) 524 500 515 103 (by decide) (by decide)
     (by decide) (by rw [setup_spectrum_length, static_init_spectrum_length])).2.2.2.1,
   (spectrum_indices_in_bounds (setup static_init) 524 500 515 103 (by decide) (by decide)
     (by decide) (by rw [setup_spectrum_length, static_init_spectrum_length])).2.2.2.2.2.2.2.2.1,
   (spectrum_indices_in_bounds (setup static_init) 524 500 515 103 (by decide) (by decide)
     (by decide) (by rw [setup_spectrum_length, static_init_spectrum_length])).2.2.2.2.2.2.2.2.2⟩

/-- C14, counterexample: a 4-byte bitmap declared as 5 by 7 pixels (which needs
`5 * ceil(7/8) = 5` bytes) is sent all the same, header and data. -/
theorem draw_length_mismatch_counterexample :
    (4 : Nat) ≠ 5 * ((7 + 7) / 8) ∧
    (VFD.new.draw 83 9 5 7 [0x00, 0x82, 0xC6, 0x82] 4)._serial =
      [0x1f, 0x28, 0x64, 0x21, 83, 0, 9, 0, 5, 0, 7, 0, 1, 0x00, 0x82, 0xC6, 0x82] ∧
    (VFD.new.draw 83 9 5 7 [0x00, 0x82, 0xC6, 0x82] 4)._serial ≠ VFD.new._serial := by
  decide

/-- C14, amended: `draw` makes no check of `len` against the geometry: for all
arguments it sends the 13-byte header with `x`, `y`, `w`, `h` and then the first
`len` bytes of `data`, and leaves the fields alone. -/
theorem draw_sends_header_and_data (v : VFD) (x y w h len : Nat) (data : List Nat) :
    (v.draw x y w h data len)._serial =
      v._serial ++ [0x1f, 0x28, 0x64, 0x21, x, 0, y, 0, w, 0, h, 0, 1] ++ data.take len ∧
    (v.draw x y w h data len)._fields = v._fields ∧
    (v.draw x y w h data len)._num_fields = v._num_fields := by
  refine ⟨?_, rfl, rfl⟩
  simp [VFD.draw, VFD.write]

/-- C15: `update()` sends bytes if and only if the field is enabled and stale; it
then sends the magnification command, the font-width command, the cursor command
and the value bytes in this order and clears the stale flag, every other attribute
unchanged; otherwise it sends nothing and leaves the field, a set stale flag on a
disabled field included, and the display unchanged. -/
theorem field_update_protocol (f : VFD.Field) (vfd : VFD) :
    ((f.update vfd).2._serial ≠ vfd._serial ↔ (f._enabled = true ∧ f._stale = true)) ∧
    (f._enabled = true ∧ f._stale = true →
      (f.update vfd).2._serial = vfd._serial ++
        ([0x1f, 0x28, 0x67, 0x40, f._xmag, f._ymag] ++ [0x1f, 0x28, 0x67, 0x03, f._width] ++
          [0x1f, 0x24, f._x, 0, f._y, 0] ++ cstr f._value) ∧
      (f.update vfd).1 = { f with _stale := false } ∧
      (f.update vfd).2._fields = vfd._fields ∧
      (f.update vfd).2._num_fields = vfd._num_fields) ∧
    (¬ (f._enabled = true ∧ f._stale = true) → f.update vfd = (f, vfd)) := by
  by_cases h : f._enabled = true ∧ f._stale = true
  · have hu := VFD.Field.update_stale f vfd h.1 h.2
    refine ⟨?_, ?_, ?_⟩
    · rw [hu]
      simp [h]
    · intro _
      rw [hu]
      exact ⟨rfl, rfl, rfl, rfl⟩
    · intro hn
      exact absurd h hn
  · have h2 : f._enabled = false ∨ f._stale = false := by
      cases he : f._enabled <;> cases hs : f._stale <;> simp_all
    have hu := VFD.Field.update_clean f vfd h2
    refine ⟨?_, ?_, ?_⟩
    · rw [hu]
      simp [h]
    · intro hp
      exact absurd hp h
    · intro _
      exact hu

/-- Witness for C15: the first field of the sketch, enabled and stale with the
value `"FM"`, is cleaned by `update()`; the disabled stale graticule field is left
as it is and nothing is sent. -/
theorem field_update_protocol_witness :
    ((((setup static_init).vfd.field fm_field).set_value [70, 77]).update VFD.new).1
      = { ((setup static_init).vfd.field fm_field).set_value [70, 77] with _stale := false } ∧
    ((setup static_init).vfd.field graticule_field).update VFD.new
      = ((setup static_init).vfd.field graticule_field, VFD.new) :=
  ⟨((field_update_protocol (((setup static_init).vfd.field fm_field).set_value [70, 77])
      VFD.new).2.1 (by decide)).2.1,
   (field_update_protocol ((setup static_init).vfd.field graticule_field) VFD.new).2.2
      (by decide)⟩

/-- C16: for a display with an 8-slot field array and `n <= 8` created fields,
`enstale_fields()` sets the stale flag of the fields in slots `0..n-1` and changes
nothing else, and `clear()` does the same after sending the byte `0x0c`; a following
`update_fields()` sends, in slot order `0..n-1`, the write sequence of every enabled
field once and nothing for a disabled field; a second `update_fields()` right after
sends no bytes. -/
theorem enstale_then_update_fields (v : VFD)
    (hlen : v._fields.length = VFD_MAX_FIELDS) (hn : v._num_fields ≤ VFD_MAX_FIELDS) :
    (∀ i, i < v._num_fields →
      v.enstale_fields.field i = { v.field i with _stale := true } ∧
      v.clear.field i = { v.field i with _stale := true }) ∧
    (∀ i, v._num_fields ≤ i →
      v.enstale_fields.field i = v.field i ∧ v.clear.field i = v.field i) ∧
    v.enstale_fields._serial = v._serial ∧
    v.clear._serial = v._serial ++ [0x0c] ∧
    v.enstale_fields._num_fields = v._num_fields ∧
    v.clear._num_fields = v._num_fields ∧
    v.enstale_fields.update_fields._serial
      = v._serial ++ ((List.range v._num_fields).map (fun i =>
          if (v.field i)._enabled = true then (v.field i).write_sequence else [])).flatten ∧
    v.clear.update_fields._serial
      = v._serial ++ [0x0c] ++ ((List.range v._num_fields).map (fun i =>
          if (v.field i)._enabled = true then (v.field i).write_sequence else [])).flatten ∧
    v.enstale_fields.update_fields.update_fields._serial
      = v.enstale_fields.update_fields._serial ∧
    v.clear.update_fields.update_fields._serial = v.clear.update_fields._serial := by
  have hn1 : v._num_fields ≤ v._fields.length := by rw [hlen]; exact hn
  have hn2 : (v.write_s [0x0c])._num_fields ≤ (v.write_s [0x0c])._fields.length := hn1
  obtain ⟨e1, e2, _, e4⟩ := VFD.enstale_fold v v._num_fields hn1
  obtain ⟨c1, c2, _, c4⟩ := VFD.enstale_fold (v.write_s [0x0c]) v._num_fields hn1
  have he : (List.range v._num_fields).foldl (fun d i => d.on_field i VFD.Field.enstale) v
      = v.enstale_fields := rfl
  have hc : (List.range v._num_fields).foldl (fun d i => d.on_field i VFD.Field.enstale)
      (v.write_s [0x0c]) = v.clear := rfl
  rw [he] at e1 e2 e4
  rw [hc] at c1 c2 c4
  have hcs : (v.write_s [0x0c])._serial = v._serial ++ [0x0c] := by
    simp [VFD.write_s, cstr]
  have hcf : ∀ i, (v.write_s [0x0c]).field i = v.field i := fun _ => rfl
  obtain ⟨a1, a2⟩ := VFD.update_after_enstale v hn1
  obtain ⟨b1, b2⟩ := VFD.update_after_enstale (v.write_s [0x0c]) hn2
  refine ⟨?_, ?_, e1, ?_, e2, c2, a1, ?_, a2, b2⟩
  · intro i hi
    rw [e4 i, c4 i, if_pos hi, if_pos hi, hcf i]
    exact ⟨rfl, rfl⟩
  · intro i hi
    rw [e4 i, c4 i, if_neg (by omega), if_neg (by omega), hcf i]
    exact ⟨rfl, rfl⟩
  · rw [c1, hcs]
  · have hb : (v.write_s [0x0c]).enstale_fields = v.clear := rfl
    rw [hb] at b1
    rw [b1, hcs]
    rfl

/-- Witness for C16: the display of the sketch after `setup()` has six created
fields; after `clear()`, `update_fields()` sends the sequences of the five enabled
ones (the graticule field is disabled) and a second `update_fields()` sends
nothing. -/
theorem enstale_then_update_fields_witness :
    (setup static_init).vfd._num_fields = 6 ∧
    (setup static_init).vfd.clear.update_fields.update_fields._serial
      = (setup static_init).vfd.clear.update_fields._serial :=
  ⟨by decide,
   (enstale_then_update_fields (setup static_init).vfd (by decide) (by decide)).2.2.2.2.2.2.2.2.2⟩

/-- C17: for every `rf` in `[band_min, band_max] = [8776, 10824]` the window start
offset as the source computes it, `(1 * rf - band_min) / 10` in 16-bit unsigned
arithmetic, equals the spec's `(rf - band_min) / 10` in exact arithmetic. -/
theorem spectrum_char_offset_refines (rf : Nat)
    (hlo : tune_freq_10khz_min ≤ rf) (hhi : rf ≤ tune_freq_10khz_max) :
    spectrum_char_offset rf = spectrum_char_offset_spec rf ∧
    spectrum_char_offset_spec rf = (rf - 8776) / 10 ∧
    tune_freq_10khz_min = 8776 ∧ tune_freq_10khz_max = 10824 := by
  unfold tune_freq_10khz_min tune_freq_10khz_max at *
  refine ⟨?_, rfl, rfl, rfl⟩
  rw [spectrum_char_offset_eq rf hlo (by omega)]
  rfl

/-- Witness for C17 at `rf = 9806`: both forms give 103. -/
theorem spectrum_char_offset_refines_witness :
    tune_freq_10khz_min ≤ 9806 ∧ 9806 ≤ tune_freq_10khz_max ∧
    spectrum_char_offset 9806 = spectrum_char_offset_spec 9806 :=
  ⟨by decide, by decide, (spectrum_char_offset_refines 9806 (by decide) (by decide)).1⟩

/-- C18: in every iteration, with `ch` the channel frequency derived from the
smoothed tuning value: if `ch` is the last-applied channel frequency no synthesizer
call is made; if it differs, exactly four calls are made, `set_freq` on CLK0 and on
CLK1 with one and the same value, then clock invert 0 on CLK0 and 1 on CLK1; either
way the last-applied channel frequency is `ch` afterwards. -/
theorem loop_synth_update (g : Sketch) (t l ch : Nat)
    (hch : ch = rf_freq_10khz_to_channel_freq_10khz
      (tuning_value_to_freq_10khz (loop g t l).tuning_value)) :
    (ch = g.last_channel_freq_10khz → (loop g t l).si5351 = g.si5351) ∧
    (ch ≠ g.last_channel_freq_10khz →
      ∃ freq, (loop g t l).si5351 = g.si5351 ++
        [Si5351Call.set_freq freq .SI5351_CLK0,
         Si5351Call.set_freq freq .SI5351_CLK1,
         Si5351Call.set_clock_invert .SI5351_CLK0 0,
         Si5351Call.set_clock_invert .SI5351_CLK1 1]) ∧
    (loop g t l).last_channel_freq_10khz = ch := by
  rw [← loop_rf_freq] at hch
  subst hch
  refine ⟨?_, ?_, loop_last_channel g t l⟩
  · intro h
    rw [loop_si5351, if_pos h]
  · intro h
    rw [loop_si5351, if_neg h]
    exact ⟨_, rfl⟩

/-- Witness for C18: after `setup()` the last-applied channel frequency is 0, so the
first iteration, at channel frequency 9810, makes the four calls and records 9810;
a second iteration at the same tuning makes none. -/
theorem loop_synth_update_witness :
    (loop (setup static_init) 512 0).last_channel_freq_10khz = 9810 ∧
    (loop (loop (setup static_init) 512 0) 512 0).si5351
      = (loop (setup static_init) 512 0).si5351 :=
  ⟨(loop_synth_update (setup static_init) 512 0 9810 (by decide)).2.2,
   (loop_synth_update (loop (setup static_init) 512 0) 512 0 9810 (by decide)).1 (by decide)⟩

/-- C19: for `old` (the smoothed tuning value) and `raw` (the tuning sample) in
`0..1023` the iteration computes `new = (3*old + raw) / 4` with no wrap of the
16-bit product `3*old`, and `min old raw <= new <= max old raw`; the tuning value
starts at 512 and stays in `0..1023` over every sequence of iterations after
`setup()` whose tuning samples are in `0..1023`. -/
theorem smoothing_no_overshoot (g : Sketch) (raw l : Nat) (samples : List (Nat × Nat))
    (hold : g.tuning_value ≤ 1023) (hraw : raw ≤ 1023)
    (hs : ∀ s ∈ samples, s.1 ≤ 1023) :
    (loop g raw l).tuning_value = (3 * g.tuning_value + raw) / 4 ∧
    3 * g.tuning_value < 65536 ∧
    min g.tuning_value raw ≤ (loop g raw l).tuning_value ∧
    (loop g raw l).tuning_value ≤ max g.tuning_value raw ∧
    (loop g raw l).tuning_value ≤ 1023 ∧
    static_init.tuning_value = 512 ∧
    (setup static_init).tuning_value = 512 ∧
    (run samples).tuning_value ≤ 1023 := by
  have hnew := smoothing_eq g.tuning_value raw hold hraw
  rw [loop_tuning_value, hnew]
  refine ⟨rfl, by omega, ?_, ?_, by omega, rfl, rfl, ?_⟩
  · rw [Nat.min_def]
    split <;> omega
  · rw [Nat.max_def]
    split <;> omega
  · exact foldl_loop_tuning_value_le samples (setup static_init) (by decide) hs

/-- Witness for C19: from the start value 512 with sample 0 the next value is 384;
after three iterations with samples 1023, 0, 700 the value is still in range. -/
theorem smoothing_no_overshoot_witness :
    (loop (setup static_init) 0 0).tuning_value = (3 * 512 + 0) / 4 ∧
    (run [(1023, 0), (0, 0), (700, 0)]).tuning_value ≤ 1023 :=
  ⟨(smoothing_no_overshoot (setup static_init) 0 0 [(1023, 0), (0, 0), (700, 0)] (by decide)
      (by decide) (by decide)).1,
   (smoothing_no_overshoot (setup static_init) 0 0 [(1023, 0), (0, 0), (700, 0)] (by decide)
      (by decide) (by decide)).2.2.2.2.2.2.2⟩

/-- C20: for every `rf` in `[8776, 10824)` the channel index is exactly
`(rf - 8776) / 10`, at most 204, and the quotient is below 256 before the
conversion to `uint8_t`, so nothing is truncated and the index is not 255; for
every `rf` the function returns 255 if and only if `rf` is outside
`[8776, 10824)`. -/
theorem fm_channel_exact (rf : Nat) :
    (8776 ≤ rf ∧ rf < 10824 →
      freq_10khz_to_fm_channel rf = (rf - 8776) / 10 ∧
      freq_10khz_to_fm_channel rf ≤ 204 ∧
      u32 (2048 * sub32 rf tune_freq_10khz_min) / u16 (10 * tune_freq_10khz_span) < 256 ∧
      freq_10khz_to_fm_channel rf ≠ 255) ∧
    (freq_10khz_to_fm_channel rf = 255 ↔ ¬ (8776 ≤ rf ∧ rf < 10824)) := by
  have hs : tune_freq_10khz_span = 2048 := by decide
  have hin : 8776 ≤ rf ∧ rf < 10824 →
      u32 (2048 * sub32 rf tune_freq_10khz_min) / u16 (10 * tune_freq_10khz_span)
        = (rf - 8776) / 10 := by
    intro h
    rw [hs]
    unfold tune_freq_10khz_min u16 u32 sub32
    norm_num
    omega
  have hval : 8776 ≤ rf ∧ rf < 10824 → freq_10khz_to_fm_channel rf = (rf - 8776) / 10 := by
    intro h
    unfold freq_10khz_to_fm_channel
    rw [if_pos (by unfold tune_freq_10khz_min tune_freq_10khz_max; exact ⟨h.1, h.2⟩), hin h]
    unfold u8
    omega
  refine ⟨?_, ?_⟩
  · intro h
    rw [hval h, hin h]
    omega
  · constructor
    · intro h255 h
      rw [hval h] at h255
      omega
    · intro h
      unfold freq_10khz_to_fm_channel
      rw [if_neg (by unfold tune_freq_10khz_min tune_freq_10khz_max; exact h)]

/-- Witness for C20 at the last in-band frequency, `rf = 10823`, index 204. -/
theorem fm_channel_exact_witness :
    freq_10khz_to_fm_channel 10823 = (10823 - 8776) / 10 ∧
    freq_10khz_to_fm_channel 10823 ≤ 204 :=
  ⟨((fm_channel_exact 10823).1 (by decide)).1, ((fm_channel_exact 10823).1 (by decide)).2.1⟩

end FmReceiver
